import Mathlib

/-!
Verification of the Borderou transformation pipeline
(`csv_cleaner.py` and `borderou_to_import_transformer.py`).

The pipeline is shallowly embedded: a spreadsheet cell is modelled by the
three observations the Python code extracts from it (its `str()` text, its
`pd.to_numeric(..., errors="coerce")` value as `Option ℚ` with `none` for
NaN, and its `pd.to_datetime(..., errors="coerce")` value as `Option Nat`
holding the `YYYYMMDD` number).  Pandas tables become lists of rows of
cells; fatal Python exceptions become `Except` errors.
-/

set_option maxRecDepth 8000

namespace ExcelProcessor

/-! ## Python string primitives used by the pipeline -/

/-- Python `str.upper()` (ASCII case mapping suffices for the filenames used). -/
def pyUpper (s : String) : String := String.mk (s.data.map Char.toUpper)

/-- Python `str.strip()`: remove leading and trailing whitespace. -/
def pyStrip (s : String) : String :=
  String.mk (((s.data.dropWhile Char.isWhitespace).reverse.dropWhile
    Char.isWhitespace).reverse)

/-- Python `s.startswith(pre)`. -/
def pyStartsWith (s pre : String) : Bool := pre.data.isPrefixOf s.data

/-- Python `needle in hay` substring test. -/
def strContains (hay needle : String) : Bool :=
  (List.range (hay.length + 1)).any fun i => needle.data.isPrefixOf (hay.data.drop i)

/-- Python `str.isdigit()`: nonempty and all digits. -/
def pyIsDigit (s : String) : Bool := !s.data.isEmpty && s.data.all Char.isDigit

/-- Python `s.replace(".", "", 1)`: drop the first dot, keep the rest. -/
def removeFirstDot : List Char → List Char
  | [] => []
  | c :: cs => if c = '.' then cs else c :: removeFirstDot cs

/-- Python `s.count(".")`. -/
def dotCount (s : String) : Nat := (s.data.filter (fun c => c = '.')).length

/-! ## Cells and tables -/

/-- One spreadsheet cell, by the three coercions the code applies to it:
`text` is `str(value)`, `num` is `pd.to_numeric(value, errors="coerce")`
(`none` = NaN), `date` is `pd.to_datetime(value, errors="coerce")`
(`none` = NaT, `some d` = the date as its `YYYYMMDD` number, which is what
`strftime("%Y%m%d")` prints). -/
structure Cell where
  text : String
  num : Option ℚ
  date : Option Nat
  deriving DecidableEq

def blankCell : Cell := ⟨"", none, none⟩

/-- `row.iloc[i]` for an index known to be in range: pandas rows all share
the table's width, and the detector's, validator's and layout's column
indices lie below it.  The cleaning loop's unconditional reads of the five
fixed columns can genuinely go out of range on a narrow table; that path
is modeled strictly by `normalizeRow?` below, not through this default. -/
def cellAt (row : List Cell) (i : Nat) : Cell := row.getD i blankCell

def numAt (row : List Cell) (i : Nat) : Option ℚ := (cellAt row i).num

/-! ## Column Locator (`transform_borderou_csv`, data-start scan and
column-structure analysis) -/

/-- The first-cell test of the data-start scan:
`first_col.isdigit() or (first_col.replace(".", "", 1).isdigit() and first_col.count(".") < 2)`. -/
def isNumericToken (s : String) : Bool :=
  pyIsDigit s || (pyIsDigit (String.mk (removeFirstDot s.data)) && decide (dotCount s < 2))

/-- One iteration of the data-start scan: first cell is an integer-like token
and the second cell (empty when the row has fewer than 2 cells) contains
the literal `"Z POS"`. -/
def isDataStartRow (row : List Cell) : Bool :=
  let firstCol := pyStrip (cellAt row 0).text
  let secondCol := if row.length > 1 then pyStrip (cellAt row 1).text else ""
  isNumericToken firstCol && strContains secondCol "Z POS"

/-- The data-start scan: index of the first matching row, defaulting to 0
when no row matches (the Python loop leaves `data_start_row = 0`). -/
def findDataStart (rows : List (List Cell)) : Nat :=
  match rows.findIdx? isDataStartRow with
  | some i => i
  | none => 0

/-- Python `range(start, stop)` as a list. -/
def idxRange (start stop : Nat) : List Nat := List.range' start (stop - start)

/-- First index in `range(start, stop)` satisfying `p`, or `none`. -/
def findFirstIdx (start stop : Nat) (p : Nat → Bool) : Option Nat :=
  (idxRange start stop).find? p

/-- Cell `i` holds a present, strictly positive numeric value. -/
def posNumAt (row : List Cell) (i : Nat) : Bool :=
  match numAt row i with
  | some v => decide (0 < v)
  | none => false

/-- Gross-total detection: first `i` in `range(5, w)` whose cell is a
positive number (`w` = number of columns). -/
def findTotalValoare (row : List Cell) (w : Nat) : Option Nat :=
  findFirstIdx 5 w (posNumAt row)

/-- The adjacent-pair test of the rate scans: both values present and
positive, and `abs(v2 - v1*rate) < v1*0.05`.  Note the tolerance is 5% of
`v1` itself, not of `v1*rate`. -/
def ratePairAt (row : List Cell) (rate : ℚ) (i : Nat) : Bool :=
  match numAt row i, numAt row (i + 1) with
  | some v1, some v2 =>
      decide (0 < v1) && decide (0 < v2) && decide (|v2 - v1 * rate| < v1 * (5 / 100))
  | _, _ => false

/-- Rate-pair scan: first `i` in `range(start, w-1)` passing `ratePairAt`;
the pair is `(i, i+1)`. -/
def findRatePair (row : List Cell) (w : Nat) (start : Nat) (rate : ℚ) : Option (Nat × Nat) :=
  (findFirstIdx start (w - 1) (ratePairAt row rate)).map fun i => (i, i + 1)

/-- The netaxabil pair test: both cells present (no positivity required). -/
def netaxPairAt (row : List Cell) (i : Nat) : Bool :=
  (numAt row i).isSome && (numAt row (i + 1)).isSome

/-- Netaxabil scan: `for i in range(w-2, max(t11v or 0, 5), -1)`, the first
(i.e. rightmost) `i` with two present numeric cells. -/
def findNetaxPair (row : List Cell) (w : Nat) (t11v : Option Nat) : Option (Nat × Nat) :=
  let lower := max (t11v.getD 0) 5
  ((idxRange (lower + 1) (w - 1)).reverse.find? (netaxPairAt row)).map fun i => (i, i + 1)

/-- The inferred column positions (`None` = column recorded as absent). -/
structure ColumnLayout where
  totalValoare : Option Nat
  tva21 : Option (Nat × Nat)
  tva11 : Option (Nat × Nat)
  netax : Option (Nat × Nat)
  deriving DecidableEq

/-- The whole column-structure analysis on the first data row:
gross total from index 5; 21% pair from after the gross total; 11% pair
from after the 21% pair; netaxabil pair scanning backward from the end. -/
def detectLayout (firstRow : List Cell) (w : Nat) : ColumnLayout :=
  let tot := findTotalValoare firstRow w
  let t21 :=
    match tot with
    | some t => findRatePair firstRow w (t + 1) (21 / 100)
    | none => none
  let t11 :=
    match t21 with
    | some p => findRatePair firstRow w (p.2 + 1) (11 / 100)
    | none => none
  let ntx := findNetaxPair firstRow w (t11.map Prod.snd)
  ⟨tot, t21, t11, ntx⟩

/-! ## Detection Validator (`_validate_tva_detection`) -/

/-- A sampled row yields a usable base/amount pair: both cells parse and the
base is nonzero. -/
def tvaUsable (colIdx baseIdx : Nat) (row : List Cell) : Bool :=
  match numAt row baseIdx, numAt row colIdx with
  | some b, some _ => !decide (b = 0)
  | _, _ => false

/-- A usable row whose amount/base ratio is within the 2% tolerance of the
expected rate: `abs(tva/base - rate) < 0.02`. -/
def tvaMatches (colIdx baseIdx : Nat) (rate : ℚ) (row : List Cell) : Bool :=
  match numAt row baseIdx, numAt row colIdx with
  | some b, some t => !decide (b = 0) && decide (|t / b - rate| < 2 / 100)
  | _, _ => false

/-- One iteration of the counting loop of `_validate_tva_detection`: skip
the row when either cell is missing or the base is zero, otherwise bump
`checked_count` and, within tolerance, `valid_count`. -/
def validateStep (colIdx baseIdx : Nat) (rate : ℚ) (acc : Nat × Nat)
    (row : List Cell) : Nat × Nat :=
  match numAt row baseIdx, numAt row colIdx with
  | some b, some t =>
      if b = 0 then acc
      else (acc.1 + 1, if |t / b - rate| < 2 / 100 then acc.2 + 1 else acc.2)
  | _, _ => acc

/-- The counting loop of `_validate_tva_detection` over the first
`min(10, len(data_rows))` rows, returning `(checked_count, valid_count)`. -/
def validateCounts (dataRows : List (List Cell)) (colIdx baseIdx : Nat) (rate : ℚ) :
    Nat × Nat :=
  (dataRows.take 10).foldl (validateStep colIdx baseIdx rate) (0, 0)

/-- `_validate_tva_detection`: vacuously true when either column is absent;
true when no usable rows or fewer than 3; otherwise false exactly when
`valid_count / checked_count < 0.7`. -/
def validateTvaDetection (dataRows : List (List Cell)) (colIdx baseIdx : Option Nat)
    (rate : ℚ) : Bool :=
  match colIdx, baseIdx with
  | some c, some b =>
      let counts := validateCounts dataRows c b rate
      if counts.1 = 0 then true
      else if counts.1 < 3 then true
      else !decide ((counts.2 : ℚ) / (counts.1 : ℚ) < 7 / 10)
  | _, _ => true

/-- Number of usable sampled rows (0 when either column is absent). -/
def usableCount (dataRows : List (List Cell)) (colIdx baseIdx : Option Nat) : Nat :=
  match colIdx, baseIdx with
  | some c, some b => ((dataRows.take 10).filter (tvaUsable c b)).length
  | _, _ => 0

/-- Number of sampled rows matching the expected rate within tolerance. -/
def matchCount (dataRows : List (List Cell)) (colIdx baseIdx : Option Nat) (rate : ℚ) :
    Nat :=
  match colIdx, baseIdx with
  | some c, some b => ((dataRows.take 10).filter (tvaMatches c b rate)).length
  | _, _ => 0

/-! ## Table Normalizer (`transform_borderou_csv`, cleaned-row construction) -/

/-- One normalized record (the 19-column cleaned schema).  `Option ℚ` fields
are `none` when the coerced cell was NaN; the placeholder columns are the
constant zeros the code writes. -/
structure NormalizedRecord where
  nrCrt : Option ℚ
  denumire : String
  nrDocZ : Option ℚ
  data : Option Nat
  explicatii : String
  totalValoare : Option ℚ
  scutitCuDreptReducere : ℚ
  scutitFaraDreptReducere : ℚ
  tva21Base : Option ℚ
  tva21Val : Option ℚ
  tva11Base : Option ℚ
  tva11Val : Option ℚ
  nefolosit1Base : ℚ
  nefolosit1Val : ℚ
  nefolosit2Base : ℚ
  nefolosit2Val : ℚ
  netaxBase : Option ℚ
  netaxVal : Option ℚ
  finalRate : ℚ
  deriving DecidableEq

/-- A financial slot: coerce the located cell when the layout has the
column, else the literal 0 the code writes. -/
def slotNum (row : List Cell) : Option Nat → Option ℚ
  | some i => numAt row i
  | none => some 0

/-- The record built by one iteration of the cleaned-row loop, for a row
wide enough for its five fixed columns (the financial slots lie below the
table width, which pandas rows share). -/
def normalizeRow (layout : ColumnLayout) (row : List Cell) : NormalizedRecord :=
  { nrCrt := numAt row 0
    denumire := pyStrip (cellAt row 1).text
    nrDocZ := numAt row 2
    data := (cellAt row 3).date
    explicatii := pyStrip (cellAt row 4).text
    totalValoare := slotNum row layout.totalValoare
    scutitCuDreptReducere := 0
    scutitFaraDreptReducere := 0
    tva21Base := slotNum row (layout.tva21.map Prod.fst)
    tva21Val := slotNum row (layout.tva21.map Prod.snd)
    tva11Base := slotNum row (layout.tva11.map Prod.fst)
    tva11Val := slotNum row (layout.tva11.map Prod.snd)
    nefolosit1Base := 0
    nefolosit1Val := 0
    nefolosit2Base := 0
    nefolosit2Val := 0
    netaxBase := slotNum row (layout.netax.map Prod.fst)
    netaxVal := slotNum row (layout.netax.map Prod.snd)
    finalRate := 0 }

/-- Failure modes of the cleaning entry point.  `layoutDetection` is the
error the specification's taxonomy names; the code never produces it.
`indexOutOfBounds` is Python's `IndexError`, raised either at
`data_rows.iloc[0]` on an empty table or at the cleaning loop's
unconditional `row.iloc[0]` … `row.iloc[4]` reads on a too-narrow row. -/
inductive CleanError where
  | layoutDetection
  | indexOutOfBounds
  deriving DecidableEq

/-- One iteration of the cleaned-row loop as executed: the five fixed
columns are read unconditionally, so a row with fewer than five cells
raises `IndexError`; otherwise the record is built. -/
def normalizeRow? (layout : ColumnLayout) (row : List Cell) :
    Except CleanError NormalizedRecord :=
  if row.length < 5 then .error .indexOutOfBounds
  else .ok (normalizeRow layout row)

/-- `transform_borderou_csv` on an already-read table: find the data start
(default 0), take rows from there, read the first data row
(`data_rows.iloc[0]`, an `IndexError` when empty), detect the layout on
it, and emit one normalized record per data row — aborting with the first
row-construction `IndexError`, as the uncaught Python exception does. -/
def transformBorderouCsv (rows : List (List Cell)) :
    Except CleanError (List NormalizedRecord × ColumnLayout) :=
  let start := findDataStart rows
  let dataRows := rows.drop start
  match dataRows with
  | [] => .error .indexOutOfBounds
  | firstRow :: _ =>
      let w := firstRow.length
      let layout := detectLayout firstRow w
      match dataRows.mapM (normalizeRow? layout) with
      | .error e => .error e
      | .ok recs => .ok (recs, layout)

/-! ## Filename Pattern Resolver (`extract_file_patterns` and the
`filename_codes` lookup of `transform_borderou_to_import_format`) -/

/-- A terminal profile: `(serie, denumire, cod_depozit)`. -/
structure TerminalProfile where
  serie : String
  denumire : String
  codDepozit : String
  deriving DecidableEq

/-- The `patterns` table of `extract_file_patterns`, in source order. -/
def filePatterns : List (String × TerminalProfile) :=
  [("AUTOSERVIRE AMT", ⟨"A", "autoservire", "1"⟩),
   ("AUTOSERVIRE", ⟨"A", "autoservire", "1"⟩),
   ("AUTOSERV", ⟨"A", "autoservire", "1"⟩),
   ("FF1", ⟨"F", "ff 1", "3"⟩),
   ("FF2", ⟨"F", "FF 2", "3"⟩),
   ("FFAMT", ⟨"F", "FF AMT", "3"⟩),
   ("RESTAURANT AMT", ⟨"R", "restaurant", "2"⟩),
   ("RESTAURANT", ⟨"R", "restaurant", "2"⟩),
   ("CASA 0014", ⟨"BFM1 0014", "marfa m1 ", "1"⟩),
   ("CASA 0012", ⟨"BFM1 0012", "marfa m1 ", "1"⟩),
   ("102", ⟨"BFM2 102", "marfa m2 ", "2"⟩),
   ("103", ⟨"BFM2 103", "marfa m2 ", "2"⟩),
   ("M1", ⟨"BFM1", "marfa m1 ", "1"⟩),
   ("M2", ⟨"BFM2", "marfa m2 ", "2"⟩),
   ("M3", ⟨"BFM3", "marfa m3 ", "3"⟩)]

/-- `sorted(patterns.items(), key=lambda x: len(x[0]), reverse=True)`:
stable sort by keyword length, longest first. -/
def sortedFilePatterns : List (String × TerminalProfile) :=
  filePatterns.insertionSort fun a b => b.1.length ≤ a.1.length

/-- The matching loop of `extract_file_patterns`: first (longest) keyword
occurring in the uppercased filename, with its profile. -/
def matchFilePattern (filename : String) : Option (String × TerminalProfile) :=
  sortedFilePatterns.find? fun kv => strContains (pyUpper filename) kv.1

/-- `extract_file_patterns`: the matched profile, or the default fallback
`("X", "general", "")` when no keyword matches. -/
def extractFilePatterns (filename : String) : TerminalProfile :=
  match matchFilePattern filename with
  | some kv => kv.2
  | none => ⟨"X", "general", ""⟩

/-- One entry of the `filename_codes` table (its `cod_articol_prefix`
field, here `codArticolPfx`, is never read downstream). -/
structure CodeMapping where
  codArticolPfx : String
  codDepozitOverride : Int
  denumire : String
  deriving DecidableEq

/-- The `filename_codes` table, in source order. -/
def filenameCodes : List (String × CodeMapping) :=
  [("FF1", ⟨"F", 3, "ff 1"⟩),
   ("FF2", ⟨"F 2", 4, "FF 2"⟩),
   ("FFAMT", ⟨"F", 3, "FF AMT"⟩),
   ("AUTOSERVIRE AMT", ⟨"A", 1, "autoservire"⟩),
   ("AUTOSERVIRE", ⟨"A", 1, "autoservire"⟩),
   ("AUTOSERV", ⟨"A", 1, "autoservire"⟩),
   ("RESTAURANT AMT", ⟨"R", 2, "restaurant"⟩),
   ("RESTAURANT", ⟨"R", 2, "restaurant"⟩),
   ("CASA 0014", ⟨"M1", 1, "marfa m1 "⟩),
   ("CASA 0012", ⟨"M1", 1, "marfa m1 "⟩),
   ("102", ⟨"M2", 2, "marfa m2 "⟩),
   ("103", ⟨"M2", 2, "marfa m2 "⟩),
   ("M1", ⟨"M1", 1, "marfa m1 "⟩),
   ("M2", ⟨"M2", 2, "marfa m2 "⟩),
   ("M3", ⟨"M3", 3, "marfa m3 "⟩)]

/-- `sorted(filename_codes.items(), key=lambda x: len(x[0]), reverse=True)`. -/
def sortedFilenameCodes : List (String × CodeMapping) :=
  filenameCodes.insertionSort fun a b => b.1.length ≤ a.1.length

/-- The code-mapping loop: first (longest) key occurring in the filename.
Unlike `extract_file_patterns` this matches against the filename as given,
case-sensitively (`if key in filename`). -/
def resolveCodeMapping (filename : String) : Option (String × CodeMapping) :=
  sortedFilenameCodes.find? fun kv => strContains filename kv.1

/-- `needs_splitting`: the filename, uppercased, contains `M1` or `M2`. -/
def needsSplitting (filename : String) : Bool :=
  strContains (pyUpper filename) "M1" || strContains (pyUpper filename) "M2"

/-! ## Accounting-stage input filter (`read_borderou_data`) -/

/-- The `dropna(subset=["Data", "Nr_Doc_Z"], how="any")` keep-condition:
both the date and the document number are present. -/
def readBorderouKeep (r : NormalizedRecord) : Bool :=
  r.data.isSome && r.nrDocZ.isSome

/-- `read_borderou_data` on normalized records: drop every record missing
its date or its document number. -/
def readBorderouData (recs : List NormalizedRecord) : List NormalizedRecord :=
  recs.filter readBorderouKeep

/-! ## Terminal Group Splitter (the `pos_groups` loop) -/

/-- The two multi-register terminal families that trigger splitting. -/
inductive TerminalFamily where
  | m1
  | m2
  deriving DecidableEq

/-- Python `str()` of the float held in `Nr_Doc_Z` (`nan` for a missing
value; integral floats print with a trailing `.0`).  Only its leading
characters are ever inspected, via `startswith`. -/
def docNumStr (r : NormalizedRecord) : String :=
  match r.nrDocZ with
  | some q => if q.den = 1 then toString q.num ++ ".0" else toString q
  | none => "nan"

/-- The per-record POS-terminal assignment: document-number leading digits
or `Explicatii` substrings, with the family's default (`0014` for M1,
`102` for M2) when neither rule matches. -/
def assignPosId (fam : TerminalFamily) (r : NormalizedRecord) : String :=
  match fam with
  | .m1 =>
      let doc := docNumStr r
      if pyStartsWith doc "15" || strContains r.explicatii "nr.14" then "0014"
      else if pyStartsWith doc "6" || strContains r.explicatii "nr.12" then "0012"
      else "0014"
  | .m2 =>
      let doc := docNumStr r
      if strContains r.explicatii "102" || pyStartsWith doc "102" then "102"
      else if strContains r.explicatii "103" || pyStartsWith doc "103" then "103"
      else "102"

/-- `pos_groups[pos_id].append(row)` on an insertion-ordered association
list (the Python dict): append to the existing group or open a new one. -/
def insertGroup (groups : List (String × List NormalizedRecord)) (k : String)
    (r : NormalizedRecord) : List (String × List NormalizedRecord) :=
  match groups with
  | [] => [(k, [r])]
  | (k', rs) :: rest =>
      if k' = k then (k', rs ++ [r]) :: rest
      else (k', rs) :: insertGroup rest k r

/-- The grouping loop: partition the records by their assigned POS id. -/
def posGroups (fam : TerminalFamily) (recs : List NormalizedRecord) :
    List (String × List NormalizedRecord) :=
  recs.foldl (fun groups r => insertGroup groups (assignPosId fam r) r) []

/-- Total number of records held across all groups. -/
def sumSizes (groups : List (String × List NormalizedRecord)) : Nat :=
  (groups.map fun g => g.2.length).sum

/-! ## Accounting Row Expander (the row-construction loops of
`transform_borderou_to_import_format` and `process_pos_group`) -/

/-- NaN-propagating subtraction on coerced floats. -/
def optSub (a b : Option ℚ) : Option ℚ := Option.map₂ (fun x y => x - y) a b

/-- NaN-propagating addition on coerced floats. -/
def optAdd (a b : Option ℚ) : Option ℚ := Option.map₂ (fun x y => x + y) a b

/-- Python `int()` on a float value: truncation toward zero. -/
def pyInt (q : ℚ) : Int := if q < 0 then -((-q).floor) else q.floor

/-- `int(row["Nr_Doc_Z"])`; on this code path the document number is
non-null (`read_borderou_data` dropped null ones), so the default is never
reached. -/
def pyIntOpt (o : Option ℚ) : Int := pyInt (o.getD 0)

/-- `date_obj.strftime("%Y%m%d")` on the record's date (non-null on this
code path, for the same reason). -/
def dateStr (o : Option Nat) : String := toString (o.getD 0)

/-- `total_valoare - netaxabil_baza`, the per-record
`Total_valoare_fata_netaxablil` figure. -/
def totalFataNetax (r : NormalizedRecord) : Option ℚ :=
  optSub r.totalValoare r.netaxBase

/-- The 51-column accounting output schema.  Account codes and other
constants are typed as the code writes them. -/
structure AccountingRow where
  serieDocument : String
  numarDocument : Int
  codDepozit : Int
  numeDepozit : String
  dataDocument : String
  dataScadenta : String
  codTipFacturaSAFT : Int
  codPartener : String
  numePartener : String
  atributFiscal : String
  codFiscal : String
  nrRegCom : String
  rezidenta : String
  tara : String
  judet : String
  localitate : String
  strada : String
  numar : String
  bloc : String
  scara : String
  etaj : String
  apartament : String
  codPostal : String
  codAgent : String
  valoareNetaTotala : Option ℚ
  valoareTVA : Option ℚ
  totalDocument : Option ℚ
  numarBonuriFiscale : String
  card : Int
  contBanca : Int
  numerar : Option ℚ
  contCasa : Int
  tichete : Int
  contTichete : Int
  contTVA : Int
  codArticol : String
  codDeBare : String
  denumireArticol : String
  cantitate : Int
  codLot : String
  dataExpirare : String
  nrSeriale : String
  tipMiscareSAFT : String
  contServiciu : String
  pretCuTVA : Option ℚ
  totalFaraTVA : Option ℚ
  totalTVA : Option ℚ
  totalCuTVA : Option ℚ
  optiuneTVA : String
  cotaTVA : Int
  codTVASAFT : Int
  discount : String
  discountLinie : String
  deriving DecidableEq

/-- The `row_21` literal: the 21% accounting row built from one record. -/
def makeRow21 (serie : String) (codDep : Int) (denArticol : String)
    (r : NormalizedRecord) : AccountingRow :=
  let ds := dateStr r.data
  let net := totalFataNetax r
  { serieDocument := serie
    numarDocument := pyIntOpt r.nrDocZ
    codDepozit := codDep
    numeDepozit := ""
    dataDocument := ds
    dataScadenta := ds
    codTipFacturaSAFT := 380
    codPartener := ""
    numePartener := ""
    atributFiscal := ""
    codFiscal := ""
    nrRegCom := ""
    rezidenta := ""
    tara := ""
    judet := ""
    localitate := ""
    strada := ""
    numar := ""
    bloc := ""
    scara := ""
    etaj := ""
    apartament := ""
    codPostal := ""
    codAgent := ""
    valoareNetaTotala := r.tva21Base
    valoareTVA := r.tva21Val
    totalDocument := net
    numarBonuriFiscale := ""
    card := 0
    contBanca := 5125
    numerar := net
    contCasa := 5311
    tichete := 0
    contTichete := 5328
    contTVA := 4427
    codArticol := denArticol ++ " 21%"
    codDeBare := ""
    denumireArticol := denArticol
    cantitate := 1
    codLot := ""
    dataExpirare := ""
    nrSeriale := ""
    tipMiscareSAFT := ""
    contServiciu := ""
    pretCuTVA := optAdd r.tva21Base r.tva21Val
    totalFaraTVA := r.tva21Base
    totalTVA := r.tva21Val
    totalCuTVA := optAdd r.tva21Base r.tva21Val
    optiuneTVA := "Taxabile"
    cotaTVA := 21
    codTVASAFT := 310344
    discount := ""
    discountLinie := "" }

/-- The `row_11` literal: the 11% accounting row built from one record. -/
def makeRow11 (serie : String) (codDep : Int) (denArticol : String)
    (r : NormalizedRecord) : AccountingRow :=
  let ds := dateStr r.data
  let net := totalFataNetax r
  { serieDocument := serie
    numarDocument := pyIntOpt r.nrDocZ
    codDepozit := codDep
    numeDepozit := ""
    dataDocument := ds
    dataScadenta := ds
    codTipFacturaSAFT := 380
    codPartener := ""
    numePartener := ""
    atributFiscal := ""
    codFiscal := ""
    nrRegCom := ""
    rezidenta := ""
    tara := ""
    judet := ""
    localitate := ""
    strada := ""
    numar := ""
    bloc := ""
    scara := ""
    etaj := ""
    apartament := ""
    codPostal := ""
    codAgent := ""
    valoareNetaTotala := r.tva11Base
    valoareTVA := r.tva11Val
    totalDocument := net
    numarBonuriFiscale := ""
    card := 0
    contBanca := 5125
    numerar := net
    contCasa := 5311
    tichete := 0
    contTichete := 5328
    contTVA := 4427
    codArticol := denArticol ++ " 11%"
    codDeBare := ""
    denumireArticol := denArticol
    cantitate := 1
    codLot := ""
    dataExpirare := ""
    nrSeriale := ""
    tipMiscareSAFT := ""
    contServiciu := ""
    pretCuTVA := optAdd r.tva11Base r.tva11Val
    totalFaraTVA := r.tva11Base
    totalTVA := r.tva11Val
    totalCuTVA := optAdd r.tva11Base r.tva11Val
    optiuneTVA := "Taxabile"
    cotaTVA := 11
    codTVASAFT := 310351
    discount := ""
    discountLinie := "" }

/-- Whole-group assembly: `output_rows_21` collects the 21% row of every
record in order, `output_rows_11` the 11% rows, and the output is their
concatenation (`output_rows_21 + output_rows_11`).  `serieOf` is the
per-record `current_serie_document` computation of the calling loop. -/
def expandGroupRows (serieOf : NormalizedRecord → String) (codDep : Int)
    (denArticol : String) (recs : List NormalizedRecord) : List AccountingRow :=
  recs.map (fun r => makeRow21 (serieOf r) codDep denArticol r) ++
    recs.map (fun r => makeRow11 (serieOf r) codDep denArticol r)

/-- `current_serie_document` of the non-split loop: for generic-M1 files
(serie `BFM1` or the fallback `X`), pick `BFM1 0014` or `BFM1 0012` from
the document-number/explanation rules, defaulting to `BFM1 0014`. -/
def serieForRecord (filename serie : String) (r : NormalizedRecord) : String :=
  if strContains filename "M1" && (serie = "BFM1" || serie = "X") then
    let doc := docNumStr r
    if pyStartsWith doc "15" || strContains r.explicatii "nr.14" then "BFM1 0014"
    else if pyStartsWith doc "6" || strContains r.explicatii "nr.12" then "BFM1 0012"
    else "BFM1 0014"
  else serie

/-- `current_serie_document` of `process_pos_group`: fixed per POS id. -/
def serieForPosGroup (filename serie posId : String) : String :=
  if strContains (pyUpper filename) "M1" then
    if posId = "0014" then "BFM1 0014"
    else if posId = "0012" then "BFM1 0012"
    else serie
  else if strContains (pyUpper filename) "M2" then
    if posId = "102" then "BFM2 102"
    else if posId = "103" then "BFM2 103"
    else serie
  else serie

/-- The fatal error of `transform_borderou_to_import_format`:
`ValueError("No code mapping found for filename: ...")`. -/
inductive TransformError where
  | noCodeMapping
  deriving DecidableEq

/-- `transform_borderou_to_import_format` on already-normalized records:
filter the records, resolve the filename profile and code mapping (a
`ValueError` when no code-mapping key occurs in the filename, raised
before any accounting row is built), then expand each group — per-POS
groups for M1/M2 files, a single table otherwise.  Each output table is
returned with its group key (`""` for the unsplit table). -/
def transformBorderouToImport (filename : String) (recs : List NormalizedRecord) :
    Except TransformError (List (String × List AccountingRow)) :=
  let df := readBorderouData recs
  let profile := extractFilePatterns filename
  match resolveCodeMapping filename with
  | none => .error .noCodeMapping
  | some kv =>
      let codDep := kv.2.codDepozitOverride
      let denArticol := kv.2.denumire
      if needsSplitting filename then
        let fam := if strContains (pyUpper filename) "M1" then TerminalFamily.m1
          else TerminalFamily.m2
        .ok ((posGroups fam df).map fun g =>
          (g.1, expandGroupRows (fun _ => serieForPosGroup filename profile.serie g.1)
            codDep denArticol g.2))
      else
        .ok [("", expandGroupRows (serieForRecord filename profile.serie)
          codDep denArticol df)]

/-! ## Auxiliary observations and concrete sample inputs -/

/-- Whether a cleaning result is a success. -/
def cleanIsOk (e : Except CleanError (List NormalizedRecord × ColumnLayout)) : Bool :=
  match e with
  | .ok _ => true
  | .error _ => false

/-- Number of normalized records of a successful cleaning result. -/
def cleanedCount (e : Except CleanError (List NormalizedRecord × ColumnLayout)) :
    Option Nat :=
  match e with
  | .ok out => some out.1.length
  | .error _ => none

/-- The tolerance the specification states for the 21% pair, in its words:
the amount is within 5% of `0.21 * base`, the 5% taken relative to
`0.21 * base`.  (The code instead takes the 5% relative to `base`.) -/
def specTol21 (v1 v2 : ℚ) : Prop := |v2 - 21 / 100 * v1| ≤ 5 / 100 * (21 / 100 * v1)

/-- A numeric cell. -/
def numCell (q : ℚ) : Cell := ⟨toString q, some q, none⟩

/-- A text-only cell (numeric and date coercions are NaN). -/
def txtCell (s : String) : Cell := ⟨s, none, none⟩

/-- A fully-populated normalized record, as produced from one Z-report
line: document 1115 on 2025-01-01, total 1000, 21% bucket (650, 136.5),
11% bucket (250, 27.5), exempt base 100. -/
def sampleRec : NormalizedRecord :=
  { nrCrt := some 1
    denumire := "Z POS 14"
    nrDocZ := some 1115
    data := some 20250101
    explicatii := "bon fiscal nr.14"
    totalValoare := some 1000
    scutitCuDreptReducere := 0
    scutitFaraDreptReducere := 0
    tva21Base := some 650
    tva21Val := some (273 / 2)
    tva11Base := some 250
    tva11Val := some (55 / 2)
    nefolosit1Base := 0
    nefolosit1Val := 0
    nefolosit2Base := 0
    nefolosit2Val := 0
    netaxBase := some 100
    netaxVal := some 0
    finalRate := 0 }

/-- A record with a document number but an unparseable date. -/
def docOnlyRec : NormalizedRecord :=
  { sampleRec with nrDocZ := some 7, data := none }

/-- A record whose document number starts with 6 (M1 group `0012`). -/
def rec0012 : NormalizedRecord :=
  { sampleRec with nrDocZ := some 612, explicatii := "bon fiscal" }

/-- A record matching no M1 grouping rule (falls to the default `0014`). -/
def recDefaultM1 : NormalizedRecord :=
  { sampleRec with nrDocZ := some 300, explicatii := "bon fiscal" }

/-- A two-row, six-column table in which no row passes the data-start
test (wide enough for the cleaning loop's five fixed columns). -/
def noMatchTable : List (List Cell) :=
  [[txtCell "Nr", txtCell "Denumire", txtCell "Nr doc", txtCell "Data",
    txtCell "Explicatii", txtCell "Total"],
   [txtCell "abc", txtCell "def", txtCell "ghi", txtCell "jkl",
    txtCell "mno", txtCell "pqr"]]

/-- A nonempty no-match table with only three columns: the cleaning loop's
`row.iloc[3]` read is out of range. -/
def narrowTable : List (List Cell) :=
  [[txtCell "a", txtCell "b", txtCell "c"]]

/-- A data row on which the code's 21% scan accepts a pair that the
specification's tolerance rejects: gross total 100 at index 5, then the
adjacent pair (100, 25) — the ratio is 0.25, off `0.21 * 100` by 4, which
is below the code's `0.05 * 100 = 5` but far above `0.05 * 21 = 1.05`. -/
def laxTolRow : List Cell :=
  [numCell 1, txtCell "Z POS 14", numCell 1115, txtCell "01.01.2025",
   txtCell "bon", numCell 100, numCell 100, numCell 25]

/-- A one-column pair table row for the validator: `[base, amount]`. -/
def vRow (b t : ℚ) : List Cell := [numCell b, numCell t]

/-- Ten usable validator rows of which exactly 7 match the 21% rate. -/
def vRows7of10 : List (List Cell) :=
  [vRow 100 21, vRow 100 21, vRow 100 21, vRow 100 21, vRow 100 21,
   vRow 100 21, vRow 100 21, vRow 100 50, vRow 100 50, vRow 100 50]

/-- Ten usable validator rows of which exactly 6 match the 21% rate. -/
def vRows6of10 : List (List Cell) :=
  [vRow 100 21, vRow 100 21, vRow 100 21, vRow 100 21, vRow 100 21,
   vRow 100 21, vRow 100 50, vRow 100 50, vRow 100 50, vRow 100 50]

/-- The layout with every inferred column absent. -/
def emptyLayout : ColumnLayout := ⟨none, none, none, none⟩

/-- A minimal-width data row of five blank cells. -/
def blankRow5 : List Cell := List.replicate 5 blankCell

/-- The record produced from the five-blank-cell row. -/
def blankRec : NormalizedRecord := normalizeRow emptyLayout blankRow5

/-! # Theorems -/

/-! ## Generic helper lemmas -/

/-- On a list whose keyword lengths are non-increasing, `find?` returns an
entry of maximal keyword length among all entries satisfying the test. -/
theorem find_longest_key {α : Type} (p : String × α → Bool) :
    ∀ (l : List (String × α)),
      l.Pairwise (fun x y => y.1.length ≤ x.1.length) →
      ∀ kv₀, l.find? p = some kv₀ →
      ∀ kv ∈ l, p kv = true → kv.1.length ≤ kv₀.1.length := by
  intro l
  induction l with
  | nil => intro _ kv₀ hfind; simp at hfind
  | cons a t ih =>
      intro hl kv₀ hfind kv hmem hp
      rw [List.pairwise_cons] at hl
      by_cases hpa : p a = true
      · rw [List.find?_cons_of_pos _ hpa] at hfind
        obtain rfl : a = kv₀ := Option.some.inj hfind
        rcases List.mem_cons.mp hmem with rfl | hmem2
        · exact le_refl _
        · exact hl.1 kv hmem2
      · rw [List.find?_cons_of_neg _ hpa] at hfind
        rcases List.mem_cons.mp hmem with rfl | hmem2
        · exact absurd hp hpa
        · exact ih hl.2 kv₀ hfind kv hmem2 hp

/-- `find?` over `range' s n`: a hit is the first index in the range that
satisfies the test. -/
theorem range'_find?_some (p : Nat → Bool) :
    ∀ (n s j : Nat), (List.range' s n).find? p = some j →
      p j = true ∧ s ≤ j ∧ j < s + n ∧ ∀ k, s ≤ k → k < j → p k = false := by
  intro n
  induction n with
  | zero => intro s j hfind; simp at hfind
  | succ n ih =>
      intro s j hfind
      rw [List.range'_succ] at hfind
      by_cases hps : p s = true
      · rw [List.find?_cons_of_pos _ hps] at hfind
        cases hfind
        exact ⟨hps, le_refl _, by omega, fun k hk1 hk2 => by omega⟩
      · rw [List.find?_cons_of_neg _ hps] at hfind
        obtain ⟨h1, h2, h3, h4⟩ := ih (s + 1) j hfind
        refine ⟨h1, by omega, by omega, fun k hk1 hk2 => ?_⟩
        rcases Nat.eq_or_lt_of_le hk1 with h | h
        · subst h; exact Bool.eq_false_iff.mpr hps
        · exact h4 k h hk2

/-- `find?` over `range' s n` misses exactly when no index in the range
satisfies the test. -/
theorem range'_find?_none (p : Nat → Bool) (n s : Nat) :
    (List.range' s n).find? p = none ↔
      ∀ k, s ≤ k → k < s + n → p k = false := by
  rw [List.find?_eq_none]
  constructor
  · intro h k hk1 hk2
    exact Bool.eq_false_iff.mpr (h k (List.mem_range'_1.mpr ⟨hk1, hk2⟩))
  · intro h k hk
    obtain ⟨h1, h2⟩ := List.mem_range'_1.mp hk
    simp [h k h1 h2]

/-- When every row is wide enough for the five fixed columns, the cleaning
loop raises nothing and builds one record per row. -/
theorem mapM_normalizeRow_ok (layout : ColumnLayout) :
    ∀ (l : List (List Cell)), (∀ row ∈ l, 5 ≤ row.length) →
      l.mapM (normalizeRow? layout) = .ok (l.map (normalizeRow layout)) := by
  intro l
  induction l with
  | nil => intro _; rfl
  | cons row t ih =>
      intro h
      rw [List.mapM_cons]
      have hrow : normalizeRow? layout row = .ok (normalizeRow layout row) := by
        rw [normalizeRow?, if_neg]
        have := h row (List.mem_cons_self _ _)
        omega
      rw [hrow, ih fun r hr => h r (List.mem_cons_of_mem _ hr)]
      rfl

/-- A successful `mapM` over `Except` preserves the list length. -/
theorem mapM_ok_length (f : List Cell → Except CleanError NormalizedRecord) :
    ∀ (l : List (List Cell)) (bs : List NormalizedRecord),
      l.mapM f = .ok bs → bs.length = l.length := by
  intro l
  induction l with
  | nil =>
      intro bs h
      have h2 : (Except.ok [] : Except CleanError (List NormalizedRecord)) =
          .ok bs := h
      cases h2
      rfl
  | cons a t ih =>
      intro bs h
      rw [List.mapM_cons] at h
      rcases hfa : f a with e | b
      · rw [hfa] at h
        have h2 : (Except.error e : Except CleanError (List NormalizedRecord)) =
            .ok bs := h
        cases h2
      · rw [hfa] at h
        rcases hmt : t.mapM f with e2 | bs2
        · rw [hmt] at h
          have h2 : (Except.error e2 : Except CleanError (List NormalizedRecord)) =
              .ok bs := h
          cases h2
        · rw [hmt] at h
          have h2 : (Except.ok (b :: bs2) :
              Except CleanError (List NormalizedRecord)) = .ok bs := h
          cases h2
          have := ih bs2 hmt
          simp [this]

/-! ## C10 -/

/-- C10: on the empty table the cleaning entry point neither returns a
result nor raises the specification's `LayoutDetectionError`: the
data-start scan leaves the default start row 0 and `data_rows.iloc[0]`
then fails with the out-of-bounds `IndexError`. -/
theorem claimC10 :
    transformBorderouCsv [] = Except.error CleanError.indexOutOfBounds ∧
    transformBorderouCsv [] ≠ Except.error CleanError.layoutDetection ∧
    cleanIsOk (transformBorderouCsv []) = false := by
  refine ⟨rfl, ?_, rfl⟩
  intro h
  exact absurd (Except.error.inj h) (by decide)

/-! ## C5 -/

/-- C5 fails on the code: on a nonempty wide-enough table in which no row
passes the data-start test, `transform_borderou_csv` raises no
`LayoutDetectionError` at all — the start row stays 0 and normalized
output is produced for every row.  (A no-match table narrower than the
five fixed columns fails too, but with the cleaning loop's out-of-range
`IndexError`, still not a `LayoutDetectionError`.) -/
theorem claimC5_counterexample :
    noMatchTable.all (fun row => !isDataStartRow row) = true ∧
    cleanIsOk (transformBorderouCsv noMatchTable) = true ∧
    cleanedCount (transformBorderouCsv noMatchTable) = some 2 ∧
    narrowTable.all (fun row => !isDataStartRow row) = true ∧
    transformBorderouCsv narrowTable = .error .indexOutOfBounds := by
  refine ⟨by decide, by decide, by decide, by decide, rfl⟩

/-- C5 amended: when no row passes the data-start test, the start row
defaults to 0 and, for a nonempty table whose rows all have at least the
five fixed columns, the cleaning entry point succeeds, emitting one
normalized record per table row — no `LayoutDetectionError` exists in the
code (the empty table and too-narrow tables instead fail with an
indexing error, see C10 and the counterexample). -/
theorem claimC5_amended (rows : List (List Cell)) (hne : rows ≠ [])
    (hno : ∀ row ∈ rows, isDataStartRow row = false)
    (hwide : ∀ row ∈ rows, 5 ≤ row.length) :
    cleanIsOk (transformBorderouCsv rows) = true ∧
    cleanedCount (transformBorderouCsv rows) = some rows.length := by
  have hidx : rows.findIdx? isDataStartRow = none := by
    rw [List.findIdx?_eq_none_iff]
    intro row hrow
    simp [hno row hrow]
  have hstart : findDataStart rows = 0 := by
    rw [findDataStart, hidx]
  rcases rows with _ | ⟨f, t⟩
  · exact absurd rfl hne
  · simp only [transformBorderouCsv, hstart, List.drop_zero]
    rw [mapM_normalizeRow_ok (detectLayout f f.length) (f :: t) hwide]
    simp [cleanIsOk, cleanedCount]

/-- Witness for the amended C5 at the concrete two-row six-column table. -/
theorem claimC5_amended_witness :
    cleanIsOk (transformBorderouCsv noMatchTable) = true ∧
    cleanedCount (transformBorderouCsv noMatchTable) = some noMatchTable.length :=
  claimC5_amended noMatchTable (by decide) (by decide) (by decide)

/-! ## C6 -/

/-- C6 fails on the code: for a filename containing none of the known
keywords, `extract_file_patterns` does not raise — it invents the default
profile `("X", "general", "")`. -/
theorem claimC6_counterexample :
    filePatterns.all (fun kv => !strContains (pyUpper "daily report.csv") kv.1) = true ∧
    extractFilePatterns "daily report.csv" = ⟨"X", "general", ""⟩ := by decide

/-- C6 amended: on a filename matching no profile keyword (uppercased) and
no code-mapping key (as given), profile resolution returns the default
profile `("X", "general", "")` rather than raising, and the
transformation then aborts with the `ValueError` of the code-mapping
lookup before any accounting row is produced (the code has no
`UnknownTerminalTypeError`). -/
theorem claimC6_amended (fn : String) (recs : List NormalizedRecord)
    (h1 : matchFilePattern fn = none) (h2 : resolveCodeMapping fn = none) :
    extractFilePatterns fn = ⟨"X", "general", ""⟩ ∧
    transformBorderouToImport fn recs = .error .noCodeMapping := by
  constructor
  · rw [extractFilePatterns, h1]
  · rw [transformBorderouToImport, h2]

/-- Witness for the amended C6 at a keyword-free filename. -/
theorem claimC6_amended_witness :
    extractFilePatterns "daily report.csv" = ⟨"X", "general", ""⟩ ∧
    transformBorderouToImport "daily report.csv" [] = .error .noCodeMapping :=
  claimC6_amended "daily report.csv" [] (by decide) (by decide)

/-! ## C8 -/

/-- C8 fails on the code: a record that has a document number but lacks a
parseable date is dropped by `read_borderou_data` — missing dates also
cause drops, not only missing document numbers. -/
theorem claimC8_counterexample :
    docOnlyRec.nrDocZ = some 7 ∧ readBorderouData [docOnlyRec] = [] := by decide

/-- C8 amended: the normalizer emits one record per data row however badly
the cells parse, and the accounting stage keeps a record exactly when it
has both a document number and a parseable date (dropping it when either
is missing). -/
theorem claimC8_amended (rows : List (List Cell))
    (out : List NormalizedRecord × ColumnLayout)
    (h : transformBorderouCsv rows = .ok out) (recs : List NormalizedRecord)
    (r : NormalizedRecord) :
    out.1.length = (rows.drop (findDataStart rows)).length ∧
    (r ∈ readBorderouData recs ↔
      r ∈ recs ∧ r.nrDocZ.isSome = true ∧ r.data.isSome = true) := by
  constructor
  · rcases hd : rows.drop (findDataStart rows) with _ | ⟨f, t⟩
    · simp only [transformBorderouCsv, hd] at h
      exact absurd h (by simp)
    · simp only [transformBorderouCsv, hd] at h
      rcases hm : (f :: t).mapM (normalizeRow? (detectLayout f f.length))
        with e | recs2
      · rw [hm] at h
        have h2 : (Except.error e :
            Except CleanError (List NormalizedRecord × ColumnLayout)) =
            .ok out := h
        cases h2
      · rw [hm] at h
        have h2 : (Except.ok (recs2, detectLayout f f.length) :
            Except CleanError (List NormalizedRecord × ColumnLayout)) =
            .ok out := h
        cases h2
        simpa using mapM_ok_length _ _ _ hm
  · simp only [readBorderouData, readBorderouKeep, List.mem_filter,
      Bool.and_eq_true]
    tauto

/-- Witness for the amended C8: the one-blank-row table cleans to one
record, and a fully-populated record passes the accounting filter. -/
theorem claimC8_witness :
    ([blankRec] : List NormalizedRecord).length =
      (([blankRow5] : List (List Cell)).drop (findDataStart [blankRow5])).length ∧
    (sampleRec ∈ readBorderouData [sampleRec] ↔
      sampleRec ∈ [sampleRec] ∧ sampleRec.nrDocZ.isSome = true ∧
        sampleRec.data.isSome = true) :=
  claimC8_amended [blankRow5] ([blankRec], emptyLayout) rfl [sampleRec] sampleRec

/-! ## C1 -/

/-- C1: for every record reaching the expander, exactly two accounting rows
are built (so a group of N records yields 2N rows), one with `Cota TVA`
21 and one with 11, and on both of them `Total document` and `Numerar`
hold the record's total value minus its netaxabil base. -/
theorem claimC1 (serieOf : NormalizedRecord → String) (codDep : Int)
    (den : String) (recs : List NormalizedRecord) :
    (expandGroupRows serieOf codDep den recs).length = 2 * recs.length ∧
    ∀ r ∈ recs,
      makeRow21 (serieOf r) codDep den r ∈
        expandGroupRows serieOf codDep den recs ∧
      makeRow11 (serieOf r) codDep den r ∈
        expandGroupRows serieOf codDep den recs ∧
      (makeRow21 (serieOf r) codDep den r).cotaTVA = 21 ∧
      (makeRow11 (serieOf r) codDep den r).cotaTVA = 11 ∧
      (makeRow21 (serieOf r) codDep den r).totalDocument =
        optSub r.totalValoare r.netaxBase ∧
      (makeRow21 (serieOf r) codDep den r).numerar =
        optSub r.totalValoare r.netaxBase ∧
      (makeRow11 (serieOf r) codDep den r).totalDocument =
        optSub r.totalValoare r.netaxBase ∧
      (makeRow11 (serieOf r) codDep den r).numerar =
        optSub r.totalValoare r.netaxBase := by
  constructor
  · rw [expandGroupRows, List.length_append, List.length_map, List.length_map]
    omega
  · intro r hr
    refine ⟨?_, ?_, rfl, rfl, rfl, rfl, rfl, rfl⟩
    · exact List.mem_append_left _ (List.mem_map.mpr ⟨r, hr, rfl⟩)
    · exact List.mem_append_right _ (List.mem_map.mpr ⟨r, hr, rfl⟩)

/-- Witness for C1 at the concrete sample record: two rows come out and
the `Numerar` of the 21% row is `1000 - 100 = 900`. -/
theorem claimC1_witness :
    (expandGroupRows (fun _ => "BFM1 0014") 1 "marfa m1 " [sampleRec]).length =
      2 * 1 ∧
    (makeRow21 "BFM1 0014" 1 "marfa m1 " sampleRec).numerar = some 900 := by
  have h := claimC1 (fun _ => "BFM1 0014") 1 "marfa m1 " [sampleRec]
  have h2 := (h.2 sampleRec (List.mem_singleton.mpr rfl)).2.2.2.2.2.1
  refine ⟨h.1, ?_⟩
  rw [h2]
  norm_num [sampleRec, optSub, Option.map₂]

/-! ## C2 -/

/-- C2: the expander's output (the assembly shared by the split and unsplit
paths) lists every 21% row before every 11% row: whenever row `i` carries
`Cota TVA` 21 and row `j` carries 11, `i < j`. -/
theorem claimC2 (serieOf : NormalizedRecord → String) (codDep : Int)
    (den : String) (recs : List NormalizedRecord) (i j : Nat)
    (hi : i < (expandGroupRows serieOf codDep den recs).length)
    (hj : j < (expandGroupRows serieOf codDep den recs).length)
    (h21 : ((expandGroupRows serieOf codDep den recs).get ⟨i, hi⟩).cotaTVA = 21)
    (h11 : ((expandGroupRows serieOf codDep den recs).get ⟨j, hj⟩).cotaTVA = 11) :
    i < j := by
  have hlen : (expandGroupRows serieOf codDep den recs).length =
      recs.length + recs.length := by
    rw [expandGroupRows, List.length_append, List.length_map, List.length_map]
  have hmaplen : (recs.map fun r => makeRow21 (serieOf r) codDep den r).length =
      recs.length := List.length_map _ _
  have hi21 : i < recs.length := by
    by_contra hge
    push_neg at hge
    have hge2 : (recs.map fun r => makeRow21 (serieOf r) codDep den r).length ≤ i := by
      rw [hmaplen]; exact hge
    rw [List.get_eq_getElem] at h21
    simp only [expandGroupRows] at h21
    rw [List.getElem_append_right hge2] at h21
    have hbound : i - recs.length < recs.length := by
      rw [hlen] at hi; omega
    rw [List.getElem_map] at h21
    simp [makeRow11] at h21
  have hj11 : recs.length ≤ j := by
    by_contra hlt
    push_neg at hlt
    have hlt2 : j < (recs.map fun r => makeRow21 (serieOf r) codDep den r).length := by
      rw [hmaplen]; exact hlt
    rw [List.get_eq_getElem] at h11
    simp only [expandGroupRows] at h11
    rw [List.getElem_append_left hlt2] at h11
    rw [List.getElem_map] at h11
    simp [makeRow21] at h11
  omega

/-- Witness for C2: in the two-row output of one sample record, the 21%
row (index 0) precedes the 11% row (index 1). -/
theorem claimC2_witness : 0 < 1 :=
  claimC2 (fun _ => "BFM1 0014") 1 "marfa m1 " [sampleRec] 0 1
    (by simp [expandGroupRows]) (by simp [expandGroupRows]) rfl rfl

/-! ## C3 -/

/-- C3: `extract_file_patterns` matches keywords as case-insensitive
substrings (the filename is uppercased; the stored keywords are upper
case), and a match is of maximal keyword length among all table entries
occurring in the filename; in particular `"M1 CASA 0014 export.csv"`
resolves to the `CASA 0014` profile even though `M1` also occurs, and a
filename containing both equal-length keywords `CASA 0012` and
`CASA 0014` resolves by table order to `CASA 0014`. -/
theorem claimC3 (fn k : String) (p : TerminalProfile)
    (hmatch : matchFilePattern fn = some (k, p))
    (kv : String × TerminalProfile) (hkv : kv ∈ filePatterns)
    (hocc : strContains (pyUpper fn) kv.1 = true) :
    strContains (pyUpper fn) k = true ∧ kv.1.length ≤ k.length ∧
    extractFilePatterns fn = p ∧
    matchFilePattern "M1 CASA 0014 export.csv" =
      some ("CASA 0014", ⟨"BFM1 0014", "marfa m1 ", "1"⟩) ∧
    extractFilePatterns "M1 CASA 0014 export.csv" =
      ⟨"BFM1 0014", "marfa m1 ", "1"⟩ ∧
    strContains (pyUpper "M1 CASA 0014 export.csv") "M1" = true ∧
    matchFilePattern "M1 CASA 0012 CASA 0014.csv" =
      some ("CASA 0014", ⟨"BFM1 0014", "marfa m1 ", "1"⟩) := by
  have hsorted : sortedFilePatterns.Pairwise
      (fun x y => y.1.length ≤ x.1.length) := by decide
  have hperm : kv ∈ sortedFilePatterns := by
    have := (List.perm_insertionSort
      (fun a b : String × TerminalProfile => b.1.length ≤ a.1.length)
      filePatterns).mem_iff (a := kv)
    rw [sortedFilePatterns]
    exact this.mpr hkv
  refine ⟨?_, ?_, ?_, by decide, by decide, by decide, by decide⟩
  · have := List.find?_some hmatch
    simpa using this
  · exact find_longest_key _ sortedFilePatterns hsorted (k, p) hmatch kv hperm hocc
  · rw [extractFilePatterns, hmatch]

/-- Witness for C3 at the ambiguous filename: the generic keyword `M1`
also occurs but is shorter, and the `CASA 0014` profile is returned. -/
theorem claimC3_witness :
    ("M1" : String).length ≤ ("CASA 0014" : String).length ∧
    extractFilePatterns "M1 CASA 0014 export.csv" =
      ⟨"BFM1 0014", "marfa m1 ", "1"⟩ := by
  have h := claimC3 "M1 CASA 0014 export.csv" "CASA 0014"
    ⟨"BFM1 0014", "marfa m1 ", "1"⟩ (by decide)
    ("M1", ⟨"BFM1", "marfa m1 ", "1"⟩) (by decide) (by decide)
  exact ⟨h.2.1, h.2.2.2.2.1⟩

/-! ## C7 -/

/-- C7 fails on the code: the tolerance of the 21% pair scan is 5% of the
base value `v1`, not 5% of `0.21 * v1`.  On `laxTolRow` the scan accepts
the pair `(100, 25)` (columns 6 and 7), whose amount is off `0.21 * 100`
by 4 — more than the specification's `0.05 * (0.21 * 100) = 1.05`. -/
theorem claimC7_counterexample :
    (detectLayout laxTolRow 8).tva21 = some (6, 7) ∧
    numAt laxTolRow 6 = some 100 ∧ numAt laxTolRow 7 = some 25 ∧
    ¬ specTol21 100 25 := by
  refine ⟨?_, by decide, by decide, by norm_num [specTol21]⟩
  norm_num [detectLayout, findTotalValoare, findRatePair, findFirstIdx, idxRange,
    List.range', List.find?, posNumAt, ratePairAt, numAt, cellAt, laxTolRow,
    numCell, txtCell]

/-- C7 amended: the 21% pair is the first adjacent pair after the gross
total whose values are positive with `|v2 - 0.21*v1| < 0.05*v1` (the 5%
tolerance taken relative to `v1`), and when no pair in range qualifies the
result is `none` — absence, not an error. -/
theorem claimC7_amended (row : List Cell) (w start : Nat) :
    (∀ q : Nat × Nat, findRatePair row w start (21 / 100) = some q →
      q.2 = q.1 + 1 ∧ start ≤ q.1 ∧ q.1 + 1 < w ∧
      ratePairAt row (21 / 100) q.1 = true ∧
      ∀ j, start ≤ j → j < q.1 → ratePairAt row (21 / 100) j = false) ∧
    (findRatePair row w start (21 / 100) = none ↔
      ∀ j, start ≤ j → j + 1 < w → ratePairAt row (21 / 100) j = false) := by
  constructor
  · intro q hq
    rw [findRatePair] at hq
    rcases hfind : findFirstIdx start (w - 1) (ratePairAt row (21 / 100)) with _ | i
    · rw [hfind] at hq; simp at hq
    · rw [hfind] at hq
      obtain rfl : (i, i + 1) = q := by simpa using hq
      rw [findFirstIdx, idxRange] at hfind
      obtain ⟨h1, h2, h3, h4⟩ := range'_find?_some _ _ _ _ hfind
      exact ⟨rfl, h2, by omega, h1, h4⟩
  · rw [findRatePair, findFirstIdx, idxRange]
    rcases hfind : (List.range' start (w - 1 - start)).find?
        (ratePairAt row (21 / 100)) with _ | i
    · constructor
      · intro _ j hj1 hj2
        exact (range'_find?_none _ _ _).mp hfind j hj1 (by omega)
      · intro _
        rfl
    · obtain ⟨h1, h2, h3, h4⟩ := range'_find?_some _ _ _ _ hfind
      constructor
      · intro h
        simp at h
      · intro hall
        have hf := hall i h2 (by omega)
        rw [hf] at h1
        simp at h1

/-- Witness for the amended C7: on `laxTolRow` the scan starting after the
gross total returns the pair `(6, 7)`, which indeed satisfies the code's
pair test at its first position. -/
theorem claimC7_amended_witness :
    ratePairAt laxTolRow (21 / 100) 6 = true := by
  have h := (claimC7_amended laxTolRow 8 6).1 (6, 7) ?_
  · exact h.2.2.2.1
  · norm_num [findRatePair, findFirstIdx, idxRange, List.range', List.find?,
      ratePairAt, numAt, cellAt, laxTolRow, numCell, txtCell]

/-! ## C4 -/

/-- One loop iteration counts exactly the usable and the in-tolerance rows. -/
theorem validateStep_spec (c b : Nat) (rate : ℚ) (acc : Nat × Nat)
    (row : List Cell) :
    validateStep c b rate acc row =
      (acc.1 + (if tvaUsable c b row then 1 else 0),
       acc.2 + (if tvaMatches c b rate row then 1 else 0)) := by
  rw [validateStep, tvaUsable, tvaMatches]
  rcases hb : numAt row b with _ | bv <;> rcases hc : numAt row c with _ | tv
  · simp
  · simp
  · simp
  · by_cases h0 : bv = 0
    · simp [h0]
    · by_cases ht : |tv / bv - rate| < 2 / 100 <;> simp [h0, ht]

/-- The counting loop computes the two filter lengths. -/
theorem validate_foldl_spec (c b : Nat) (rate : ℚ) :
    ∀ (m : List (List Cell)) (a v : Nat),
      m.foldl (validateStep c b rate) (a, v) =
        (a + (m.filter (tvaUsable c b)).length,
         v + (m.filter (tvaMatches c b rate)).length) := by
  intro m
  induction m with
  | nil => intro a v; simp
  | cons row t ih =>
      intro a v
      rw [List.foldl_cons, validateStep_spec]
      rw [ih]
      cases hu : tvaUsable c b row <;> cases hm : tvaMatches c b rate row <;>
        simp [List.filter_cons, hu, hm] <;> omega

/-- The 70% comparison in ℚ is the cross-multiplied Nat comparison. -/
theorem ratio_threshold (u v : Nat) (hu : 0 < u) :
    (¬ ((v : ℚ) / (u : ℚ) < 7 / 10)) ↔ 7 * u ≤ 10 * v := by
  rw [not_lt, div_le_div_iff₀ (by norm_num) (by exact_mod_cast hu)]
  constructor
  · intro h
    have h2 : (7 * u : ℚ) ≤ 10 * v := by linarith
    exact_mod_cast h2
  · intro h
    have h2 : (7 * u : ℚ) ≤ 10 * v := by exact_mod_cast h
    linarith

/-- C4: the validator passes exactly when fewer than 3 of the (at most 10)
sampled rows are usable, or at least 70% of the usable rows match the
expected rate within the 2% tolerance; in particular 7 matches out of 10
usable rows pass and 6 out of 10 fail. -/
theorem claimC4 (dataRows : List (List Cell)) (colIdx baseIdx : Option Nat)
    (rate : ℚ) :
    (validateTvaDetection dataRows colIdx baseIdx rate = true ↔
      usableCount dataRows colIdx baseIdx < 3 ∨
        7 * usableCount dataRows colIdx baseIdx ≤
          10 * matchCount dataRows colIdx baseIdx rate) ∧
    validateTvaDetection vRows7of10 (some 1) (some 0) (21 / 100) = true ∧
    validateTvaDetection vRows6of10 (some 1) (some 0) (21 / 100) = false := by
  refine ⟨?_, ?_, ?_⟩
  · rcases colIdx with _ | c
    · simp [validateTvaDetection, usableCount]
    rcases baseIdx with _ | b
    · simp [validateTvaDetection, usableCount]
    have hcounts : validateCounts dataRows c b rate =
        (usableCount dataRows (some c) (some b),
         matchCount dataRows (some c) (some b) rate) := by
      rw [validateCounts, validate_foldl_spec, usableCount, matchCount]
      simp
    rw [validateTvaDetection, hcounts]
    set u := usableCount dataRows (some c) (some b) with hdefu
    set v := matchCount dataRows (some c) (some b) rate with hdefv
    by_cases h3 : u < 3
    · rcases Nat.eq_zero_or_pos u with h0 | h0
      · simp [h0]
      · have h0' : ¬ u = 0 := by omega
        simp [h0', h3]
    · have h0' : ¬ u = 0 := by omega
      simp only [h0', if_false, h3]
      rw [Bool.not_eq_true', decide_eq_false_iff_not,
        ratio_threshold u v (by omega)]
      tauto
  · have hx : |(29 : ℚ) / 100| = 29 / 100 := abs_of_nonneg (by norm_num)
    norm_num [validateTvaDetection, validateCounts, validateStep, vRows7of10,
      vRow, numAt, cellAt, numCell, List.foldl, hx]
  · have hx : |(29 : ℚ) / 100| = 29 / 100 := abs_of_nonneg (by norm_num)
    norm_num [validateTvaDetection, validateCounts, validateStep, vRows6of10,
      vRow, numAt, cellAt, numCell, List.foldl, hx]

/-! ## C9 -/

/-- Appending one record to its group grows the total size by one. -/
theorem sumSizes_insertGroup (g : List (String × List NormalizedRecord))
    (k : String) (r : NormalizedRecord) :
    sumSizes (insertGroup g k r) = sumSizes g + 1 := by
  induction g with
  | nil => simp [insertGroup, sumSizes]
  | cons a t ih =>
      obtain ⟨k', rs⟩ := a
      rw [insertGroup]
      by_cases hk : k' = k
      · simp [hk, sumSizes, List.length_append]
        omega
      · simp only [hk, if_false, sumSizes, List.map_cons, List.sum_cons] at *
        omega

/-- Inserting leaves the key list unchanged, or appends the new key. -/
theorem keys_insertGroup (g : List (String × List NormalizedRecord))
    (k : String) (r : NormalizedRecord) :
    (insertGroup g k r).map Prod.fst =
      if k ∈ g.map Prod.fst then g.map Prod.fst
      else g.map Prod.fst ++ [k] := by
  induction g with
  | nil => simp [insertGroup]
  | cons a t ih =>
      obtain ⟨k', rs⟩ := a
      rw [insertGroup]
      by_cases hk : k' = k
      · subst hk
        simp
      · have hne : ¬ k = k' := fun h => hk h.symm
        simp only [hk, if_false, List.map_cons, ih, List.mem_cons, hne,
          false_or]
        by_cases hmem : k ∈ t.map Prod.fst <;> simp [hmem]

/-- Inserting preserves distinctness of the group keys. -/
theorem nodup_keys_insertGroup (g : List (String × List NormalizedRecord))
    (k : String) (r : NormalizedRecord)
    (h : (g.map Prod.fst).Nodup) :
    ((insertGroup g k r).map Prod.fst).Nodup := by
  rw [keys_insertGroup]
  by_cases hmem : k ∈ g.map Prod.fst
  · simpa [hmem] using h
  · simp only [hmem, if_false]
    rw [List.nodup_append]
    exact ⟨h, List.nodup_singleton k, by simpa using hmem⟩

/-- Inserting a record under its own key preserves that every stored
record carries its group's key. -/
theorem wf_insertGroup (f : NormalizedRecord → String)
    (g : List (String × List NormalizedRecord)) (r : NormalizedRecord)
    (h : ∀ p ∈ g, ∀ x ∈ p.2, f x = p.1) :
    ∀ p ∈ insertGroup g (f r) r, ∀ x ∈ p.2, f x = p.1 := by
  induction g with
  | nil =>
      intro p hp x hx
      simp only [insertGroup, List.mem_singleton] at hp
      subst hp
      simp only [List.mem_singleton] at hx
      subst hx
      rfl
  | cons a t ih =>
      obtain ⟨k', rs⟩ := a
      intro p hp x hx
      rw [insertGroup] at hp
      by_cases hk : k' = f r
      · rw [if_pos hk] at hp
        rcases List.mem_cons.mp hp with rfl | hp2
        · rcases List.mem_append.mp hx with hx2 | hx2
          · exact h (k', rs) (List.mem_cons_self _ _) x hx2
          · simp only [List.mem_singleton] at hx2
            subst hx2
            exact hk.symm
        · exact h p (List.mem_cons_of_mem _ hp2) x hx
      · rw [if_neg hk] at hp
        rcases List.mem_cons.mp hp with rfl | hp2
        · exact h _ (List.mem_cons_self _ _) x hx
        · exact ih (fun q hq y hy => h q (List.mem_cons_of_mem _ hq) y hy) p hp2 x hx

/-- A record already stored in some group stays in that group's list
through an insertion. -/
theorem mem_insertGroup_of_mem (g : List (String × List NormalizedRecord))
    (k : String) (r : NormalizedRecord) (q : String)
    (rs : List NormalizedRecord) (x : NormalizedRecord)
    (hq : (q, rs) ∈ g) (hx : x ∈ rs) :
    ∃ rs2, (q, rs2) ∈ insertGroup g k r ∧ x ∈ rs2 := by
  induction g with
  | nil => simp at hq
  | cons a t ih =>
      obtain ⟨k', rs'⟩ := a
      rw [insertGroup]
      by_cases hk : k' = k
      · rw [if_pos hk]
        rcases List.mem_cons.mp hq with heq | hq2
        · injection heq with h1 h2
          subst h1
          subst h2
          exact ⟨rs ++ [r], List.mem_cons_self _ _, List.mem_append_left _ hx⟩
        · exact ⟨rs, List.mem_cons_of_mem _ hq2, hx⟩
      · rw [if_neg hk]
        rcases List.mem_cons.mp hq with heq | hq2
        · exact ⟨rs, by rw [heq]; exact List.mem_cons_self _ _, hx⟩
        · obtain ⟨rs2, hmem, hx2⟩ := ih hq2
          exact ⟨rs2, List.mem_cons_of_mem _ hmem, hx2⟩

/-- The inserted record lands in the group of its key. -/
theorem mem_insertGroup_self (g : List (String × List NormalizedRecord))
    (k : String) (r : NormalizedRecord) :
    ∃ rs, (k, rs) ∈ insertGroup g k r ∧ r ∈ rs := by
  induction g with
  | nil => exact ⟨[r], by simp [insertGroup], by simp⟩
  | cons a t ih =>
      obtain ⟨k', rs'⟩ := a
      rw [insertGroup]
      by_cases hk : k' = k
      · subst hk
        exact ⟨rs' ++ [r], by simp, by simp⟩
      · obtain ⟨rs, hmem, hr⟩ := ih
        exact ⟨rs, by simp [hk, hmem], hr⟩

/-- Stored records survive the rest of the grouping loop. -/
theorem posGroups_fold_mem (fam : TerminalFamily) :
    ∀ (recs : List NormalizedRecord)
      (acc : List (String × List NormalizedRecord)) (q : String)
      (rs : List NormalizedRecord) (x : NormalizedRecord),
      (q, rs) ∈ acc → x ∈ rs →
      ∃ rs2, (q, rs2) ∈ recs.foldl
          (fun groups r => insertGroup groups (assignPosId fam r) r) acc ∧
        x ∈ rs2 := by
  intro recs
  induction recs with
  | nil =>
      intro acc q rs x hq hx
      exact ⟨rs, hq, hx⟩
  | cons r t ih =>
      intro acc q rs x hq hx
      rw [List.foldl_cons]
      obtain ⟨rs2, hmem, hx2⟩ :=
        mem_insertGroup_of_mem acc (assignPosId fam r) r q rs x hq hx
      exact ih _ q rs2 x hmem hx2

/-- Every processed record ends up in the group of its assigned key. -/
theorem posGroups_fold_assigned (fam : TerminalFamily) :
    ∀ (recs : List NormalizedRecord)
      (acc : List (String × List NormalizedRecord)) (x : NormalizedRecord),
      x ∈ recs →
      ∃ rs, (assignPosId fam x, rs) ∈ recs.foldl
          (fun groups r => insertGroup groups (assignPosId fam r) r) acc ∧
        x ∈ rs := by
  intro recs
  induction recs with
  | nil =>
      intro acc x hx
      simp at hx
  | cons r t ih =>
      intro acc x hx
      rw [List.foldl_cons]
      rcases List.mem_cons.mp hx with rfl | hx2
      · obtain ⟨rs, hmem, hr⟩ := mem_insertGroup_self acc (assignPosId fam x) x
        exact posGroups_fold_mem fam t _ _ rs x hmem hr
      · exact ih _ x hx2

/-- The grouping loop conserves the total record count. -/
theorem posGroups_fold_sum (fam : TerminalFamily) :
    ∀ (recs : List NormalizedRecord)
      (acc : List (String × List NormalizedRecord)),
      sumSizes (recs.foldl
        (fun groups r => insertGroup groups (assignPosId fam r) r) acc) =
      sumSizes acc + recs.length := by
  intro recs
  induction recs with
  | nil => intro acc; simp
  | cons r t ih =>
      intro acc
      rw [List.foldl_cons, ih, sumSizes_insertGroup]
      simp [Nat.add_comm, Nat.add_assoc, Nat.add_left_comm]

/-- The grouping loop keeps the group keys distinct. -/
theorem posGroups_fold_nodup (fam : TerminalFamily) :
    ∀ (recs : List NormalizedRecord)
      (acc : List (String × List NormalizedRecord)),
      (acc.map Prod.fst).Nodup →
      ((recs.foldl
        (fun groups r => insertGroup groups (assignPosId fam r) r) acc).map
          Prod.fst).Nodup := by
  intro recs
  induction recs with
  | nil => intro acc h; exact h
  | cons r t ih =>
      intro acc h
      rw [List.foldl_cons]
      exact ih _ (nodup_keys_insertGroup acc (assignPosId fam r) r h)

/-- The grouping loop keeps every stored record under its own key. -/
theorem posGroups_fold_wf (fam : TerminalFamily) :
    ∀ (recs : List NormalizedRecord)
      (acc : List (String × List NormalizedRecord)),
      (∀ p ∈ acc, ∀ x ∈ p.2, assignPosId fam x = p.1) →
      ∀ p ∈ recs.foldl
          (fun groups r => insertGroup groups (assignPosId fam r) r) acc,
        ∀ x ∈ p.2, assignPosId fam x = p.1 := by
  intro recs
  induction recs with
  | nil => intro acc h; exact h
  | cons r t ih =>
      intro acc h
      rw [List.foldl_cons]
      exact ih _ (wf_insertGroup (assignPosId fam) acc r h)

/-- C9: the splitter's partition is total and unambiguous — the group
sizes sum to the number of records, keys are distinct, every group holds
only records assigned to its key, every record lands in the group of its
key, and a record matching no rule falls to the family default (`0014`
for M1, `102` for M2, the only possible keys being 0014/0012 and
102/103). -/
theorem claimC9 (fam : TerminalFamily) (recs : List NormalizedRecord)
    (r : NormalizedRecord) (hr : r ∈ recs) :
    sumSizes (posGroups fam recs) = recs.length ∧
    ((posGroups fam recs).map Prod.fst).Nodup ∧
    (∀ p ∈ posGroups fam recs, ∀ x ∈ p.2, assignPosId fam x = p.1) ∧
    (∃ rs, (assignPosId fam r, rs) ∈ posGroups fam recs ∧ r ∈ rs) ∧
    (∀ x : NormalizedRecord, assignPosId TerminalFamily.m1 x = "0014" ∨
      assignPosId TerminalFamily.m1 x = "0012") ∧
    (∀ x : NormalizedRecord, assignPosId TerminalFamily.m2 x = "102" ∨
      assignPosId TerminalFamily.m2 x = "103") ∧
    (∀ x : NormalizedRecord,
      pyStartsWith (docNumStr x) "15" = false →
      strContains x.explicatii "nr.14" = false →
      pyStartsWith (docNumStr x) "6" = false →
      strContains x.explicatii "nr.12" = false →
      assignPosId TerminalFamily.m1 x = "0014") ∧
    (∀ x : NormalizedRecord,
      strContains x.explicatii "102" = false →
      pyStartsWith (docNumStr x) "102" = false →
      strContains x.explicatii "103" = false →
      pyStartsWith (docNumStr x) "103" = false →
      assignPosId TerminalFamily.m2 x = "102") := by
  refine ⟨?_, ?_, ?_, ?_, ?_, ?_, ?_, ?_⟩
  · rw [posGroups, posGroups_fold_sum]
    simp [sumSizes]
  · exact posGroups_fold_nodup fam recs [] (by simp)
  · exact posGroups_fold_wf fam recs [] (by simp)
  · exact posGroups_fold_assigned fam recs [] r hr
  · intro x
    rw [assignPosId]
    split_ifs <;> simp
  · intro x
    rw [assignPosId]
    split_ifs <;> simp
  · intro x h15 h14 h6 h12
    rw [assignPosId]
    simp [h15, h14, h6, h12]
  · intro x h102e h102d h103e h103d
    rw [assignPosId]
    simp [h102e, h102d, h103e, h103d]

/-- Witness for C9 on a concrete three-record M1 batch: three records are
distributed without loss and the no-rule record falls to `0014`. -/
theorem claimC9_witness :
    sumSizes (posGroups TerminalFamily.m1 [sampleRec, rec0012, recDefaultM1]) = 3 ∧
    assignPosId TerminalFamily.m1 recDefaultM1 = "0014" := by
  have h := claimC9 TerminalFamily.m1 [sampleRec, rec0012, recDefaultM1] rec0012
    (by simp)
  exact ⟨h.1, h.2.2.2.2.2.2.1 recDefaultM1 (by decide) (by decide) (by decide)
    (by decide)⟩

end ExcelProcessor
